import Mathlib

/-
Verification of the jeevan-setu real-time emergency dispatch coordinator.

The coordinator lives in src/backend/src/models/PatientProfile.js
(lines 271-475): an in-memory `state` object with three Maps
(drivers, emergencies, hospitals) keyed by socket id resp. emergency id,
a set of socket.io event handlers, and two helper functions
(broadcastToAvailableDrivers, calculateDistance).

Embedding choices:
  * socket ids and uuid values are Nat; uuidv4() is modelled by a counter
    field nextId that is bumped on every allocation, which preserves the
    only property the code relies on: freshness of generated ids.
  * a JS Map is an association list (List (Nat x V)) with insertion-order
    semantics: Map.set replaces in place or appends (setAssoc), Map.get is
    getAssoc, Map.delete is delAssoc, Map.forEach is iteration in list
    order.
  * the JS or-default idiom (data.name || fallback) treats undefined and
    the empty string as falsy for strings and undefined and 0 as falsy for
    numbers; jsOrStr / jsOrInt reproduce exactly that.
  * socket.emit / io.to(id).emit become explicit Msg values addressed to a
    socket id; each handler returns the successor state and the list of
    messages it emitted, in emission order.
  * the timestamp field (Date.now()) is never read by any handler and is
    omitted.
  * Math.sin / Math.cos / Math.atan2 floats are modelled by real numbers;
    coordinates are rationals cast into the reals where the distance
    computation needs them.
-/

namespace Dispatch

/-- Latitude/longitude pair; the patient default location also carries a
human-readable address string, so the field is optional, mirroring the JS
object literals in the source. -/
structure Loc where
  lat : ℚ
  lng : ℚ
  address : Option String := none
deriving DecidableEq

/-- Driver availability, the status field of a driver record. -/
inductive DriverStatus
  | available
  | busy
deriving DecidableEq

/-- Emergency status field; cancelled is transient in the code (the entry
is deleted right after the status write) but kept for fidelity. -/
inductive EStatus
  | searching
  | accepted
  | cancelled
deriving DecidableEq

/-- Driver record as built by the driver:register handler. -/
structure Driver where
  id : Nat
  socketId : Nat
  name : String
  vehicle : String
  location : Loc
  status : DriverStatus
deriving DecidableEq

/-- Emergency record as built by the patient:sos handler.  The field
etype is named type in the source.  assignedDriver stores the driver
record captured at accept time; the code only ever reads its socketId,
name and vehicle fields afterwards. -/
structure Emergency where
  id : Nat
  patientSocketId : Nat
  location : Loc
  severity : String
  etype : String
  status : EStatus
  assignedDriver : Option Driver
deriving DecidableEq

/-- Hospital record as built by the hospital:register handler. -/
structure Hospital where
  id : Nat
  socketId : Nat
  name : String
  beds : Int
  icu : Int
  location : Loc
deriving DecidableEq

/-- The in-memory state object of the server. -/
structure ServerState where
  drivers : List (Nat × Driver)
  emergencies : List (Nat × Emergency)
  hospitals : List (Nat × Hospital)
  nextId : Nat
deriving DecidableEq

/-- Payload of driver:register; every field may be absent. -/
structure RegisterData where
  name : Option String
  vehicle : Option String
  location : Option Loc
deriving DecidableEq

/-- Payload of patient:sos; every field may be absent. -/
structure SosData where
  location : Option Loc
  severity : Option String
  etype : Option String
deriving DecidableEq

/-- Payload of hospital:register; every field may be absent. -/
structure HospitalData where
  name : Option String
  beds : Option Int
  icu : Option Int
  location : Option Loc
deriving DecidableEq

/-- One inbound socket event, tagged with the sending socket id. -/
inductive Event
  | driverRegister (sid : Nat) (data : RegisterData)
  | driverUpdateLocation (sid : Nat) (location : Loc)
  | driverAccept (sid : Nat) (emergencyId : Nat)
  | driverReject (sid : Nat) (emergencyId : Nat)
  | patientSos (sid : Nat) (data : SosData)
  | patientCancel (sid : Nat) (emergencyId : Nat)
  | hospitalRegister (sid : Nat) (data : HospitalData)
  | hospitalUpdateBeds (sid : Nat) (beds : Int) (icu : Int)
  | disconnect (sid : Nat)
deriving DecidableEq

/-- One outbound message, addressed to a socket id.  For the offer
message emergency:new-request the wire payload carries
calculateDistance driverLocation location as its distance field; the
message here records the two inputs of that pure function. -/
inductive Msg
  | driverRegistered (dst : Nat) (driver : Driver)
  | hospitalRegistered (dst : Nat) (hospital : Hospital)
  | emergencyCreated (dst : Nat) (emergencyId : Nat) (status : EStatus)
  | emergencyNewRequest (dst : Nat) (emergencyId : Nat) (location : Loc)
      (severity : String) (etype : String) (driverLocation : Loc)
  | emergencyNoDrivers (dst : Nat) (emergencyId : Nat)
  | emergencyDriverAssigned (dst : Nat) (emergencyId : Nat)
      (driverName : String) (vehicle : String) (eta : String)
  | driverAssignmentConfirmed (dst : Nat) (emergencyId : Nat) (emergency : Emergency)
  | hospitalIncomingPatient (dst : Nat) (emergencyId : Nat)
      (severity : String) (eta : String) (vehicle : String)
  | emergencyCancelled (dst : Nat) (emergencyId : Nat)
deriving DecidableEq

/-- JS Map.get. -/
def getAssoc {α : Type} : List (Nat × α) → Nat → Option α
  | [], _ => none
  | (k2, v) :: rest, k => if k2 = k then some v else getAssoc rest k

/-- JS Map.set: replace in place when the key is present, append otherwise. -/
def setAssoc {α : Type} : List (Nat × α) → Nat → α → List (Nat × α)
  | [], k, v => [(k, v)]
  | (k2, v2) :: rest, k, v =>
      if k2 = k then (k, v) :: rest else (k2, v2) :: setAssoc rest k v

/-- JS Map.delete: remove every entry with the given key (a Map never has
duplicate keys, so this coincides with deleting the one entry). -/
def delAssoc {α : Type} : List (Nat × α) → Nat → List (Nat × α)
  | [], _ => []
  | (k2, v) :: rest, k =>
      if k2 = k then delAssoc rest k else (k2, v) :: delAssoc rest k

/-- JS string or-default: data.field || fallback, where undefined and the
empty string are falsy. -/
def jsOrStr (v : Option String) (d : String) : String :=
  match v with
  | none => d
  | some s => if s = "" then d else s

/-- JS integer or-default: data.field || fallback, where undefined and 0
are falsy. -/
def jsOrInt (v : Option Int) (d : Int) : Int :=
  match v with
  | none => d
  | some n => if n = 0 then d else n

/-- Default driver location (Mumbai) from the driver:register handler. -/
def mumbaiLoc : Loc := { lat := 19.076, lng := 72.8777, address := none }

/-- Default patient location from the patient:sos handler. -/
def unknownLoc : Loc := { lat := 19.076, lng := 72.8777, address := some "Unknown Location" }

/-- Default hospital location from the hospital:register handler. -/
def hospitalDefaultLoc : Loc := { lat := 19.08, lng := 72.88, address := none }

/-- Handler of driver:register (source lines 284-296). -/
def handleDriverRegister (s : ServerState) (sid : Nat) (d : RegisterData) :
    ServerState × List Msg :=
  let driver : Driver :=
    { id := s.nextId
      socketId := sid
      name := jsOrStr d.name "Unknown Driver"
      vehicle := jsOrStr d.vehicle "MH-XX-XXXX"
      location := d.location.getD mumbaiLoc
      status := DriverStatus.available }
  ({ s with drivers := setAssoc s.drivers sid driver, nextId := s.nextId + 1 },
   [Msg.driverRegistered sid driver])

/-- Handler of driver:update-location (source lines 298-304). -/
def handleDriverUpdateLocation (s : ServerState) (sid : Nat) (loc : Loc) :
    ServerState × List Msg :=
  match getAssoc s.drivers sid with
  | some driver =>
      ({ s with drivers := setAssoc s.drivers sid { driver with location := loc } }, [])
  | none => (s, [])

/-- Handler of driver:accept (source lines 306-340).  The guard checks
that the driver record and the emergency exist and that the emergency is
still searching; note that it does NOT check the driver status. -/
def handleDriverAccept (s : ServerState) (sid : Nat) (eid : Nat) :
    ServerState × List Msg :=
  match getAssoc s.drivers sid, getAssoc s.emergencies eid with
  | some driver, some em =>
      if em.status = EStatus.searching then
        let driver2 := { driver with status := DriverStatus.busy }
        let em2 := { em with status := EStatus.accepted, assignedDriver := some driver2 }
        ({ s with
            drivers := setAssoc s.drivers sid driver2
            emergencies := setAssoc s.emergencies eid em2 },
         Msg.emergencyDriverAssigned em.patientSocketId eid driver.name driver.vehicle "5 mins"
           :: Msg.driverAssignmentConfirmed sid eid em2
           :: s.hospitals.map
                (fun p => Msg.hospitalIncomingPatient p.1 eid em.severity "8 mins" driver.vehicle))
      else (s, [])
  | _, _ => (s, [])

/-- The helper broadcastToAvailableDrivers (source lines 438-458): offer
the emergency to every driver whose status is available, counting them;
if none was notified, tell the patient that no drivers were found. -/
def broadcastToAvailableDrivers (s : ServerState) (em : Emergency) : List Msg :=
  let offers := s.drivers.filterMap
    (fun p =>
      if p.2.status = DriverStatus.available then
        some (Msg.emergencyNewRequest p.1 em.id em.location em.severity em.etype p.2.location)
      else none)
  offers ++ (if offers.length = 0 then [Msg.emergencyNoDrivers em.patientSocketId em.id] else [])

/-- Handler of driver:reject (source lines 342-349): when the emergency
id is known (whatever its status), re-run the broadcast; the state is not
touched. -/
def handleDriverReject (s : ServerState) (_sid : Nat) (eid : Nat) :
    ServerState × List Msg :=
  match getAssoc s.emergencies eid with
  | some em => (s, broadcastToAvailableDrivers s em)
  | none => (s, [])

/-- Handler of patient:sos (source lines 352-373). -/
def handlePatientSos (s : ServerState) (sid : Nat) (d : SosData) :
    ServerState × List Msg :=
  let em : Emergency :=
    { id := s.nextId
      patientSocketId := sid
      location := d.location.getD unknownLoc
      severity := jsOrStr d.severity "high"
      etype := jsOrStr d.etype "accident"
      status := EStatus.searching
      assignedDriver := none }
  let s2 := { s with emergencies := setAssoc s.emergencies s.nextId em, nextId := s.nextId + 1 }
  (s2, Msg.emergencyCreated sid em.id EStatus.searching :: broadcastToAvailableDrivers s2 em)

/-- Handler of patient:cancel (source lines 375-391).  The code first
writes status cancelled and then deletes the entry; the net effect on the
ledger is the deletion, which is what is modelled. -/
def handlePatientCancel (s : ServerState) (sid : Nat) (eid : Nat) :
    ServerState × List Msg :=
  match getAssoc s.emergencies eid with
  | some em =>
      if em.patientSocketId = sid then
        let msgs := match em.assignedDriver with
          | some ad => [Msg.emergencyCancelled ad.socketId eid]
          | none => []
        let drivers2 := match em.assignedDriver with
          | some ad =>
              match getAssoc s.drivers ad.socketId with
              | some drv =>
                  setAssoc s.drivers ad.socketId { drv with status := DriverStatus.available }
              | none => s.drivers
          | none => s.drivers
        ({ s with drivers := drivers2, emergencies := delAssoc s.emergencies eid }, msgs)
      else (s, [])
  | none => (s, [])

/-- Handler of hospital:register (source lines 394-406). -/
def handleHospitalRegister (s : ServerState) (sid : Nat) (d : HospitalData) :
    ServerState × List Msg :=
  let hospital : Hospital :=
    { id := s.nextId
      socketId := sid
      name := jsOrStr d.name "City Hospital"
      beds := jsOrInt d.beds 10
      icu := jsOrInt d.icu 2
      location := d.location.getD hospitalDefaultLoc }
  ({ s with hospitals := setAssoc s.hospitals sid hospital, nextId := s.nextId + 1 },
   [Msg.hospitalRegistered sid hospital])

/-- Handler of hospital:update-beds (source lines 408-415). -/
def handleHospitalUpdateBeds (s : ServerState) (sid : Nat) (beds icu : Int) :
    ServerState × List Msg :=
  match getAssoc s.hospitals sid with
  | some h =>
      ({ s with hospitals := setAssoc s.hospitals sid { h with beds := beds, icu := icu } }, [])
  | none => (s, [])

/-- Handler of disconnect (source lines 418-435): it removes the driver
record and the hospital record bound to the socket, and nothing else; in
particular emergencies owned by the socket are left untouched. -/
def handleDisconnect (s : ServerState) (sid : Nat) : ServerState × List Msg :=
  ({ s with drivers := delAssoc s.drivers sid, hospitals := delAssoc s.hospitals sid }, [])

/-- Dispatch one event to its handler, as io.on wires the socket handlers. -/
def step (s : ServerState) (e : Event) : ServerState × List Msg :=
  match e with
  | Event.driverRegister sid d => handleDriverRegister s sid d
  | Event.driverUpdateLocation sid loc => handleDriverUpdateLocation s sid loc
  | Event.driverAccept sid eid => handleDriverAccept s sid eid
  | Event.driverReject sid eid => handleDriverReject s sid eid
  | Event.patientSos sid d => handlePatientSos s sid d
  | Event.patientCancel sid eid => handlePatientCancel s sid eid
  | Event.hospitalRegister sid d => handleHospitalRegister s sid d
  | Event.hospitalUpdateBeds sid b i => handleHospitalUpdateBeds s sid b i
  | Event.disconnect sid => handleDisconnect s sid

/-- The state at server start: three empty Maps. -/
def initState : ServerState :=
  { drivers := [], emergencies := [], hospitals := [], nextId := 0 }

/-- Run a list of events, returning the final state. -/
def run : ServerState → List Event → ServerState
  | s, [] => s
  | s, e :: rest => run (step s e).1 rest

theorem getAssoc_setAssoc {α : Type} (l : List (Nat × α)) (k k2 : Nat) (v : α) :
    getAssoc (setAssoc l k v) k2 = if k = k2 then some v else getAssoc l k2 := by
  induction l with
  | nil => simp [getAssoc, setAssoc]
  | cons p rest ih =>
      obtain ⟨k3, v3⟩ := p
      by_cases h : k3 = k
      · subst h
        by_cases h2 : k3 = k2 <;> simp [setAssoc, getAssoc, h2]
      · by_cases h2 : k3 = k2
        · subst h2
          have hk : ¬ k = k3 := fun hh => h hh.symm
          simp [setAssoc, getAssoc, h, hk]
        · simp [setAssoc, getAssoc, h, h2, ih]

theorem getAssoc_delAssoc {α : Type} (l : List (Nat × α)) (k k2 : Nat) :
    getAssoc (delAssoc l k) k2 = if k = k2 then none else getAssoc l k2 := by
  induction l with
  | nil => simp [getAssoc, delAssoc]
  | cons p rest ih =>
      obtain ⟨k3, v3⟩ := p
      by_cases h : k3 = k
      · subst h
        by_cases h2 : k3 = k2
        · subst h2
          simp [delAssoc, getAssoc, ih]
        · simp [delAssoc, getAssoc, ih, h2]
      · by_cases h2 : k3 = k2
        · subst h2
          have hk : ¬ k = k3 := fun hh => h hh.symm
          simp [delAssoc, getAssoc, h, hk]
        · simp [delAssoc, getAssoc, h, h2, ih]

theorem mem_of_getAssoc_eq_some {α : Type} {l : List (Nat × α)} {k : Nat} {v : α}
    (h : getAssoc l k = some v) : (k, v) ∈ l := by
  induction l with
  | nil => simp [getAssoc] at h
  | cons p rest ih =>
      obtain ⟨k2, v2⟩ := p
      by_cases h2 : k2 = k
      · subst h2
        simp [getAssoc] at h
        subst h
        exact List.mem_cons_self _ _
      · simp only [getAssoc, if_neg h2] at h
        exact List.mem_cons_of_mem _ (ih h)

theorem filterMap_eq_nil_of_none {α β : Type} (f : α → Option β) :
    ∀ l : List α, (∀ a ∈ l, f a = none) → l.filterMap f = []
  | [], _ => rfl
  | a :: l, h => by
      rw [List.filterMap_cons, h a (List.mem_cons_self a l)]
      exact filterMap_eq_nil_of_none f l (fun x hx => h x (List.mem_cons_of_mem a hx))

/-- Guard of driver:accept: true exactly when the accept would commit,
i.e. the sender has a driver record, the emergency id is in the ledger and
its status is searching. -/
def commitsB (s : ServerState) (sid eid : Nat) : Bool :=
  match getAssoc s.drivers sid, getAssoc s.emergencies eid with
  | some _, some em => if em.status = EStatus.searching then true else false
  | _, _ => false

/-- True when the event is a driver:accept for the given emergency id that
commits in the given state. -/
def eventCommits (s : ServerState) (e : Event) (eid : Nat) : Bool :=
  match e with
  | Event.driverAccept sid eid2 => if eid2 = eid then commitsB s sid eid else false
  | _ => false

/-- Number of accepts for the given emergency id that commit along a run. -/
def acceptCommitCount : ServerState → List Event → Nat → Nat
  | _, [], _ => 0
  | s, e :: rest, eid =>
      (if eventCommits s e eid then 1 else 0) + acceptCommitCount (step s e).1 rest eid

/-- Every emergency id present in the ledger is below the id counter; this
captures the freshness of generated ids. -/
def KeysBounded (s : ServerState) : Prop :=
  ∀ k em, getAssoc s.emergencies k = some em → k < s.nextId

/-- The emergency id has been allocated already and is not searching: no
accept for it can commit any more. -/
def Resolved (s : ServerState) (eid : Nat) : Prop :=
  eid < s.nextId ∧ ∀ em, getAssoc s.emergencies eid = some em → em.status ≠ EStatus.searching

theorem keysBounded_init : KeysBounded initState := by
  intro k em hk
  simp [initState, getAssoc] at hk

theorem keysBounded_step (s : ServerState) (e : Event) (h : KeysBounded s) :
    KeysBounded (step s e).1 := by
  cases e with
  | driverRegister sid d =>
      intro k em hk
      exact Nat.lt_succ_of_lt (h k em hk)
  | driverUpdateLocation sid loc =>
      cases hd : getAssoc s.drivers sid <;>
        · intro k em hk
          simp only [step, handleDriverUpdateLocation, hd] at hk ⊢
          exact h k em hk
  | driverAccept sid eid2 =>
      cases hd : getAssoc s.drivers sid with
      | none =>
          intro k em hk
          simp only [step, handleDriverAccept, hd] at hk ⊢
          exact h k em hk
      | some driver =>
          cases he : getAssoc s.emergencies eid2 with
          | none =>
              intro k em hk
              simp only [step, handleDriverAccept, hd, he] at hk ⊢
              exact h k em hk
          | some em0 =>
              by_cases hs : em0.status = EStatus.searching
              · intro k em hk
                simp only [step, handleDriverAccept, hd, he, if_pos hs] at hk ⊢
                rw [getAssoc_setAssoc] at hk
                by_cases hk2 : eid2 = k
                · subst hk2; exact h eid2 em0 he
                · rw [if_neg hk2] at hk; exact h k em hk
              · intro k em hk
                simp only [step, handleDriverAccept, hd, he, if_neg hs] at hk ⊢
                exact h k em hk
  | driverReject sid eid2 =>
      cases he : getAssoc s.emergencies eid2 <;>
        · intro k em hk
          simp only [step, handleDriverReject, he] at hk ⊢
          exact h k em hk
  | patientSos sid d =>
      intro k em hk
      simp only [step, handlePatientSos] at hk ⊢
      rw [getAssoc_setAssoc] at hk
      by_cases hk2 : s.nextId = k
      · subst hk2; exact Nat.lt_succ_self _
      · rw [if_neg hk2] at hk
        exact Nat.lt_succ_of_lt (h k em hk)
  | patientCancel sid eid2 =>
      cases he : getAssoc s.emergencies eid2 with
      | none =>
          intro k em hk
          simp only [step, handlePatientCancel, he] at hk ⊢
          exact h k em hk
      | some em0 =>
          by_cases hown : em0.patientSocketId = sid
          · intro k em hk
            simp only [step, handlePatientCancel, he, if_pos hown] at hk ⊢
            rw [getAssoc_delAssoc] at hk
            by_cases hk2 : eid2 = k
            · rw [if_pos hk2] at hk; exact absurd hk (by simp)
            · rw [if_neg hk2] at hk; exact h k em hk
          · intro k em hk
            simp only [step, handlePatientCancel, he, if_neg hown] at hk ⊢
            exact h k em hk
  | hospitalRegister sid d =>
      intro k em hk
      exact Nat.lt_succ_of_lt (h k em hk)
  | hospitalUpdateBeds sid b i =>
      cases hh : getAssoc s.hospitals sid <;>
        · intro k em hk
          simp only [step, handleHospitalUpdateBeds, hh] at hk ⊢
          exact h k em hk
  | disconnect sid =>
      intro k em hk
      exact h k em hk

theorem resolved_step (s : ServerState) (e : Event) (eid : Nat) (h : Resolved s eid) :
    Resolved (step s e).1 eid := by
  obtain ⟨hlt, hst⟩ := h
  cases e with
  | driverRegister sid d =>
      exact ⟨Nat.lt_succ_of_lt hlt, hst⟩
  | driverUpdateLocation sid loc =>
      cases hd : getAssoc s.drivers sid <;>
        · constructor
          · simpa only [step, handleDriverUpdateLocation, hd] using hlt
          · intro em hk
            simp only [step, handleDriverUpdateLocation, hd] at hk
            exact hst em hk
  | driverAccept sid eid2 =>
      cases hd : getAssoc s.drivers sid with
      | none =>
          constructor
          · simpa only [step, handleDriverAccept, hd] using hlt
          · intro em hk
            simp only [step, handleDriverAccept, hd] at hk
            exact hst em hk
      | some driver =>
          cases he : getAssoc s.emergencies eid2 with
          | none =>
              constructor
              · simpa only [step, handleDriverAccept, hd, he] using hlt
              · intro em hk
                simp only [step, handleDriverAccept, hd, he] at hk
                exact hst em hk
          | some em0 =>
              by_cases hs : em0.status = EStatus.searching
              · constructor
                · simpa only [step, handleDriverAccept, hd, he, if_pos hs] using hlt
                · intro em hk
                  simp only [step, handleDriverAccept, hd, he, if_pos hs] at hk
                  rw [getAssoc_setAssoc] at hk
                  by_cases hk2 : eid2 = eid
                  · rw [if_pos hk2, Option.some.injEq] at hk
                    subst hk
                    simp
                  · rw [if_neg hk2] at hk
                    exact hst em hk
              · constructor
                · simpa only [step, handleDriverAccept, hd, he, if_neg hs] using hlt
                · intro em hk
                  simp only [step, handleDriverAccept, hd, he, if_neg hs] at hk
                  exact hst em hk
  | driverReject sid eid2 =>
      cases he : getAssoc s.emergencies eid2 <;>
        · constructor
          · simpa only [step, handleDriverReject, he] using hlt
          · intro em hk
            simp only [step, handleDriverReject, he] at hk
            exact hst em hk
  | patientSos sid d =>
      constructor
      · exact Nat.lt_succ_of_lt hlt
      · intro em hk
        simp only [step, handlePatientSos] at hk
        rw [getAssoc_setAssoc] at hk
        rw [if_neg (Nat.ne_of_gt hlt)] at hk
        exact hst em hk
  | patientCancel sid eid2 =>
      cases he : getAssoc s.emergencies eid2 with
      | none =>
          constructor
          · simpa only [step, handlePatientCancel, he] using hlt
          · intro em hk
            simp only [step, handlePatientCancel, he] at hk
            exact hst em hk
      | some em0 =>
          by_cases hown : em0.patientSocketId = sid
          · constructor
            · simpa only [step, handlePatientCancel, he, if_pos hown] using hlt
            · intro em hk
              simp only [step, handlePatientCancel, he, if_pos hown] at hk
              rw [getAssoc_delAssoc] at hk
              by_cases hk2 : eid2 = eid
              · rw [if_pos hk2] at hk; exact absurd hk (by simp)
              · rw [if_neg hk2] at hk; exact hst em hk
          · constructor
            · simpa only [step, handlePatientCancel, he, if_neg hown] using hlt
            · intro em hk
              simp only [step, handlePatientCancel, he, if_neg hown] at hk
              exact hst em hk
  | hospitalRegister sid d =>
      exact ⟨Nat.lt_succ_of_lt hlt, hst⟩
  | hospitalUpdateBeds sid b i =>
      cases hh : getAssoc s.hospitals sid <;>
        · constructor
          · simpa only [step, handleHospitalUpdateBeds, hh] using hlt
          · intro em hk
            simp only [step, handleHospitalUpdateBeds, hh] at hk
            exact hst em hk
  | disconnect sid =>
      exact ⟨hlt, hst⟩

theorem commit_establishes_resolved (s : ServerState) (e : Event) (eid : Nat)
    (hb : KeysBounded s) (hc : eventCommits s e eid = true) :
    Resolved (step s e).1 eid := by
  cases e with
  | driverAccept sid eid2 =>
      simp only [eventCommits] at hc
      by_cases h2 : eid2 = eid
      · subst h2
        rw [if_pos rfl] at hc
        cases hd : getAssoc s.drivers sid with
        | none => simp [commitsB, hd] at hc
        | some driver =>
            cases he : getAssoc s.emergencies eid2 with
            | none => simp [commitsB, hd, he] at hc
            | some em0 =>
                simp only [commitsB, hd, he] at hc
                by_cases hs : em0.status = EStatus.searching
                · constructor
                  · simpa only [step, handleDriverAccept, hd, he, if_pos hs] using hb eid2 em0 he
                  · intro em hk
                    simp only [step, handleDriverAccept, hd, he, if_pos hs] at hk
                    rw [getAssoc_setAssoc, if_pos rfl, Option.some.injEq] at hk
                    subst hk
                    simp
                · rw [if_neg hs] at hc; cases hc
      · rw [if_neg h2] at hc; cases hc
  | driverRegister sid d => cases hc
  | driverUpdateLocation sid loc => cases hc
  | driverReject sid eid2 => cases hc
  | patientSos sid d => cases hc
  | patientCancel sid eid2 => cases hc
  | hospitalRegister sid d => cases hc
  | hospitalUpdateBeds sid b i => cases hc
  | disconnect sid => cases hc

theorem resolved_no_commit (s : ServerState) (e : Event) (eid : Nat)
    (h : Resolved s eid) : eventCommits s e eid = false := by
  cases e with
  | driverAccept sid eid2 =>
      simp only [eventCommits]
      by_cases h2 : eid2 = eid
      · rw [if_pos h2]
        subst h2
        cases hd : getAssoc s.drivers sid with
        | none => simp [commitsB, hd]
        | some driver =>
            cases he : getAssoc s.emergencies eid2 with
            | none => simp [commitsB, hd, he]
            | some em0 => simp [commitsB, hd, he, h.2 em0 he]
      · rw [if_neg h2]
  | driverRegister sid d => rfl
  | driverUpdateLocation sid loc => rfl
  | driverReject sid eid2 => rfl
  | patientSos sid d => rfl
  | patientCancel sid eid2 => rfl
  | hospitalRegister sid d => rfl
  | hospitalUpdateBeds sid b i => rfl
  | disconnect sid => rfl

theorem resolved_count_zero (eid : Nat) :
    ∀ (evs : List Event) (s : ServerState), Resolved s eid →
      acceptCommitCount s evs eid = 0
  | [], _, _ => rfl
  | e :: rest, s, h => by
      rw [acceptCommitCount, resolved_no_commit s e eid h]
      simp only [if_neg (by simp : ¬ (false = true)), Nat.zero_add]
      exact resolved_count_zero eid rest (step s e).1 (resolved_step s e eid h)

theorem keysBounded_count_le_one (eid : Nat) :
    ∀ (evs : List Event) (s : ServerState), KeysBounded s →
      acceptCommitCount s evs eid ≤ 1
  | [], _, _ => Nat.zero_le 1
  | e :: rest, s, h => by
      rw [acceptCommitCount]
      cases hc : eventCommits s e eid with
      | true =>
          rw [if_pos rfl]
          have hz := resolved_count_zero eid rest (step s e).1
            (commit_establishes_resolved s e eid h hc)
          omega
      | false =>
          rw [if_neg (by simp)]
          have := keysBounded_count_le_one eid rest (step s e).1 (keysBounded_step s e h)
          omega

theorem broadcast_no_available (s : ServerState) (em : Emergency)
    (h : ∀ p ∈ s.drivers, (p : Nat × Driver).2.status ≠ DriverStatus.available) :
    broadcastToAvailableDrivers s em =
      [Msg.emergencyNoDrivers em.patientSocketId em.id] := by
  have hnil : s.drivers.filterMap (fun p =>
      if p.2.status = DriverStatus.available then
        some (Msg.emergencyNewRequest p.1 em.id em.location em.severity em.etype p.2.location)
      else none) = [] :=
    filterMap_eq_nil_of_none _ s.drivers (fun p hp => if_neg (h p hp))
  simp only [broadcastToAvailableDrivers]
  rw [hnil]
  rfl

/-- C1: for every emergency request and every sequence of events from any
mix of sockets, at most one driver:accept for that request commits (the
guard requires status searching, which holds never again once an accept has
committed); and an accept that does not commit leaves the entire server
state unchanged and emits no message at all, so the losing responder in
particular never receives a success confirmation. -/
theorem C1_at_most_one_accept_commits (evs : List Event) (eid : Nat) :
    acceptCommitCount initState evs eid ≤ 1 ∧
    (∀ (s : ServerState) (sid : Nat),
      eventCommits s (Event.driverAccept sid eid) eid = false →
      step s (Event.driverAccept sid eid) = (s, [])) := by
  constructor
  · exact keysBounded_count_le_one eid evs initState keysBounded_init
  · intro s sid hc
    simp only [eventCommits, if_pos rfl] at hc
    cases hd : getAssoc s.drivers sid with
    | none => simp [step, handleDriverAccept, hd]
    | some driver =>
        cases he : getAssoc s.emergencies eid with
        | none => simp [step, handleDriverAccept, hd, he]
        | some em0 =>
            by_cases hs : em0.status = EStatus.searching
            · exfalso
              simp [commitsB, hd, he, hs] at hc
            · simp [step, handleDriverAccept, hd, he, hs]

/-- Witness for C1: a concrete run with one accept attempt, and a concrete
failing accept on the empty state that is a no-op with no reply. -/
theorem C1_witness :
    acceptCommitCount initState [Event.driverAccept 1 0] 0 ≤ 1 ∧
    step initState (Event.driverAccept 1 0) = (initState, []) := by
  have h := C1_at_most_one_accept_commits [Event.driverAccept 1 0] 0
  exact ⟨h.1, h.2 initState 1 (by decide)⟩

/-- Event trace for C2: one driver, two sos requests, and the driver
accepts both in a row. -/
def c2Events : List Event :=
  [Event.driverRegister 1 { name := none, vehicle := none, location := none },
   Event.patientSos 100 { location := none, severity := none, etype := none },
   Event.patientSos 101 { location := none, severity := none, etype := none },
   Event.driverAccept 1 1,
   Event.driverAccept 1 2]

/-- C2: the responder-exclusivity invariant fails on the code.  The
driver:accept guard checks the emergency status but never the driver
status, so a busy driver can accept a second searching request: after
c2Events the single registered responder is busy and is the assigned
responder of the two distinct requests 1 and 2, both in state accepted. -/
theorem C2_busy_driver_assigned_two_accepted :
    ((run initState c2Events).drivers.map (fun p => (p.1, p.2.status)) =
      [(1, DriverStatus.busy)]) ∧
    ((run initState c2Events).emergencies.map
        (fun p => (p.1, p.2.status, p.2.assignedDriver.map Driver.socketId)) =
      [(1, EStatus.accepted, some 1), (2, EStatus.accepted, some 1)]) := by
  decide

/-- Event trace for C3: a patient opens a request, disconnects, and then a
registered driver accepts the orphaned request. -/
def c3Events : List Event :=
  [Event.driverRegister 1 { name := none, vehicle := none, location := none },
   Event.patientSos 100 { location := none, severity := none, etype := none },
   Event.disconnect 100,
   Event.driverAccept 1 1]

/-- C3: disconnect cleanup does not touch the emergencies ledger.  After
the requester on socket 100 disconnects its request 1 is still searching
(not cancelled), and the subsequent driver:accept succeeds and assigns the
responder, contradicting the claim that a post-disconnect accept fails. -/
theorem C3_disconnect_leaves_request_acceptable :
    ((run initState (c3Events.take 3)).emergencies.map (fun p => (p.1, p.2.status)) =
      [(1, EStatus.searching)]) ∧
    ((run initState c3Events).emergencies.map
        (fun p => (p.1, p.2.status, p.2.assignedDriver.map Driver.socketId)) =
      [(1, EStatus.accepted, some 1)]) := by
  decide

/-- C4: a successful driver:accept performs exactly these effects: the
accepting responder is marked busy in the registry; the requester gets an
emergency:driver-assigned message with the responder name, vehicle and an
ETA string; the accepting responder gets an assignment confirmation; and
every entry of the hospitals Map, with no selection or filtering, gets an
incoming-patient message with the request id, severity, an ETA string and
the vehicle. -/
theorem C4_accept_success_effects (s : ServerState) (sid eid : Nat)
    (driver : Driver) (em : Emergency)
    (hd : getAssoc s.drivers sid = some driver)
    (he : getAssoc s.emergencies eid = some em)
    (hs : em.status = EStatus.searching) :
    step s (Event.driverAccept sid eid) =
      ({ s with
          drivers := setAssoc s.drivers sid { driver with status := DriverStatus.busy }
          emergencies := setAssoc s.emergencies eid
            { em with status := EStatus.accepted
                      assignedDriver := some { driver with status := DriverStatus.busy } } },
       Msg.emergencyDriverAssigned em.patientSocketId eid driver.name driver.vehicle "5 mins"
         :: Msg.driverAssignmentConfirmed sid eid
              { em with status := EStatus.accepted
                        assignedDriver := some { driver with status := DriverStatus.busy } }
         :: s.hospitals.map
              (fun p => Msg.hospitalIncomingPatient p.1 eid em.severity "8 mins" driver.vehicle)) := by
  simp [step, handleDriverAccept, hd, he, hs]

/-- Concrete driver for the C4 witness. -/
def c4driver : Driver :=
  { id := 0, socketId := 1, name := "Asha", vehicle := "MH-01-1234",
    location := mumbaiLoc, status := DriverStatus.available }

/-- Concrete emergency for the C4 witness. -/
def c4em : Emergency :=
  { id := 2, patientSocketId := 100, location := unknownLoc, severity := "high",
    etype := "accident", status := EStatus.searching, assignedDriver := none }

/-- Concrete hospital for the C4 witness. -/
def c4hospital : Hospital :=
  { id := 3, socketId := 50, name := "City Hospital", beds := 10, icu := 2,
    location := hospitalDefaultLoc }

/-- Concrete state for the C4 witness: one driver, one searching request,
one hospital. -/
def c4state : ServerState :=
  { drivers := [(1, c4driver)], emergencies := [(2, c4em)],
    hospitals := [(50, c4hospital)], nextId := 4 }

/-- Witness for C4 at a concrete state with one registered hospital. -/
theorem C4_witness :
    step c4state (Event.driverAccept 1 2) =
      ({ c4state with
          drivers := setAssoc c4state.drivers 1 { c4driver with status := DriverStatus.busy }
          emergencies := setAssoc c4state.emergencies 2
            { c4em with status := EStatus.accepted
                        assignedDriver := some { c4driver with status := DriverStatus.busy } } },
       Msg.emergencyDriverAssigned c4em.patientSocketId 2 c4driver.name c4driver.vehicle "5 mins"
         :: Msg.driverAssignmentConfirmed 1 2
              { c4em with status := EStatus.accepted
                          assignedDriver := some { c4driver with status := DriverStatus.busy } }
         :: c4state.hospitals.map
              (fun p => Msg.hospitalIncomingPatient p.1 2 c4em.severity "8 mins" c4driver.vehicle)) :=
  C4_accept_success_effects c4state 1 2 c4driver c4em rfl rfl rfl

/-- State for the C5 counterexample and witness: responder on socket 1
registered and available, request 1 opened by the patient on socket 100. -/
def c5State : ServerState :=
  run initState
    [Event.driverRegister 1 { name := none, vehicle := none, location := none },
     Event.patientSos 100 { location := none, severity := none, etype := none }]

/-- The emergency record held by c5State under id 1. -/
def c5Em : Emergency :=
  { id := 1, patientSocketId := 100, location := unknownLoc, severity := "high",
    etype := "accident", status := EStatus.searching, assignedDriver := none }

/-- Projection extracting, from an offer message, the offered socket and
the emergency id; none on every other message kind. -/
def offerKey : Msg → Option (Nat × Nat)
  | Msg.emergencyNewRequest dst eid _ _ _ _ => some (dst, eid)
  | _ => none

/-- C5 counterexample: responder 1 rejects request 1 while being the only
available responder, and the resulting re-broadcast consists exactly of an
offer of request 1 addressed back to responder 1 - the rejecting responder
is NOT excluded from the same broadcast round, refuting the claim as
stated. -/
theorem C5_counterexample_rejector_reoffered :
    (step c5State (Event.driverReject 1 1)).2.filterMap offerKey = [(1, 1)] := by
  decide

/-- C5 (amended): on driver:reject for a request id present in the ledger,
whatever its status, the state is unchanged and the offer is re-broadcast
to every responder whose status is available - including the rejecting
responder when it is available; nothing restricts the re-broadcast to
requests still in state searching. -/
theorem C5_reject_rebroadcast (s : ServerState) (sid eid : Nat) (em : Emergency)
    (hem : getAssoc s.emergencies eid = some em) :
    step s (Event.driverReject sid eid) = (s, broadcastToAvailableDrivers s em) ∧
    (∀ (sid2 : Nat) (d : Driver), getAssoc s.drivers sid2 = some d →
      d.status = DriverStatus.available →
      Msg.emergencyNewRequest sid2 em.id em.location em.severity em.etype d.location ∈
        (step s (Event.driverReject sid eid)).2) := by
  have hstep : step s (Event.driverReject sid eid) = (s, broadcastToAvailableDrivers s em) := by
    simp [step, handleDriverReject, hem]
  refine ⟨hstep, ?_⟩
  intro sid2 d hd hav
  rw [hstep]
  simp only [broadcastToAvailableDrivers]
  apply List.mem_append_left
  apply List.mem_filterMap.mpr
  exact ⟨(sid2, d), mem_of_getAssoc_eq_some hd, by simp [hav]⟩

/-- Witness for C5 at the concrete state c5State. -/
theorem C5_witness :
    step c5State (Event.driverReject 1 1) = (c5State, broadcastToAvailableDrivers c5State c5Em) ∧
    (∀ (sid2 : Nat) (d : Driver), getAssoc c5State.drivers sid2 = some d →
      d.status = DriverStatus.available →
      Msg.emergencyNewRequest sid2 c5Em.id c5Em.location c5Em.severity c5Em.etype d.location ∈
        (step c5State (Event.driverReject 1 1)).2) :=
  C5_reject_rebroadcast c5State 1 1 c5Em rfl

/-- C6: a patient:sos processed while no registered responder has status
available creates the request, leaves it in the ledger in state searching,
and the only messages are the creation acknowledgement and an
emergency:no-drivers notification to the requester - the request is not
closed, cancelled or retried. -/
theorem C6_no_available_responders (s : ServerState) (sid : Nat) (d : SosData)
    (h : ∀ p ∈ s.drivers, (p : Nat × Driver).2.status ≠ DriverStatus.available) :
    ∃ em : Emergency,
      getAssoc (step s (Event.patientSos sid d)).1.emergencies s.nextId = some em ∧
      em.status = EStatus.searching ∧
      em.patientSocketId = sid ∧
      (step s (Event.patientSos sid d)).2 =
        [Msg.emergencyCreated sid s.nextId EStatus.searching,
         Msg.emergencyNoDrivers sid s.nextId] := by
  refine ⟨{ id := s.nextId, patientSocketId := sid, location := d.location.getD unknownLoc,
            severity := jsOrStr d.severity "high", etype := jsOrStr d.etype "accident",
            status := EStatus.searching, assignedDriver := none }, ?_, rfl, rfl, ?_⟩
  · simp only [step, handlePatientSos]
    rw [getAssoc_setAssoc, if_pos rfl]
  · simp only [step, handlePatientSos]
    exact congrArg (Msg.emergencyCreated sid s.nextId EStatus.searching :: ·)
      (broadcast_no_available _ _ h)

/-- Witness for C6: the initial state has no responders at all. -/
theorem C6_witness :
    ∃ em : Emergency,
      getAssoc (step initState
        (Event.patientSos 100 { location := none, severity := none, etype := none })).1.emergencies
          initState.nextId = some em ∧
      em.status = EStatus.searching ∧
      em.patientSocketId = 100 ∧
      (step initState
        (Event.patientSos 100 { location := none, severity := none, etype := none })).2 =
        [Msg.emergencyCreated 100 initState.nextId EStatus.searching,
         Msg.emergencyNoDrivers 100 initState.nextId] :=
  C6_no_available_responders initState 100
    { location := none, severity := none, etype := none } (by decide)

/-- C7: a patient:cancel from the owning requester of a searching or
accepted request removes the request from the ledger; when a responder was
assigned, that responder is notified that the job was cancelled and, if it
is still registered, its availability is set back to available; a cancel
naming a request id absent from the ledger (which is where cancelled
requests end up, since cancelling deletes the entry) is a total no-op -
and every case is a defined result, never an error. -/
theorem C7_owner_cancel (s : ServerState) (sid eid : Nat) (em : Emergency)
    (hem : getAssoc s.emergencies eid = some em)
    (hown : em.patientSocketId = sid)
    (_hst : em.status = EStatus.searching ∨ em.status = EStatus.accepted) :
    getAssoc (step s (Event.patientCancel sid eid)).1.emergencies eid = none ∧
    (em.assignedDriver = none →
      step s (Event.patientCancel sid eid) =
        ({ s with emergencies := delAssoc s.emergencies eid }, [])) ∧
    (∀ ad : Driver, em.assignedDriver = some ad →
      Msg.emergencyCancelled ad.socketId eid ∈ (step s (Event.patientCancel sid eid)).2 ∧
      ∀ drv : Driver, getAssoc s.drivers ad.socketId = some drv →
        getAssoc (step s (Event.patientCancel sid eid)).1.drivers ad.socketId =
          some { drv with status := DriverStatus.available }) ∧
    (∀ s2 : ServerState, getAssoc s2.emergencies eid = none →
      step s2 (Event.patientCancel sid eid) = (s2, [])) := by
  refine ⟨?_, ?_, ?_, ?_⟩
  · simp only [step, handlePatientCancel, hem, if_pos hown]
    rw [getAssoc_delAssoc, if_pos rfl]
  · intro hnone
    simp [step, handlePatientCancel, hem, hown, hnone]
  · intro ad had
    constructor
    · simp [step, handlePatientCancel, hem, hown, had]
    · intro drv hdrv
      simp only [step, handlePatientCancel, hem, if_pos hown, had, hdrv]
      rw [getAssoc_setAssoc, if_pos rfl]
  · intro s2 h2
    simp [step, handlePatientCancel, h2]

/-- Driver assigned in the C7 witness state. -/
def c7driver : Driver :=
  { id := 0, socketId := 3, name := "Ravi", vehicle := "MH-02-0007",
    location := mumbaiLoc, status := DriverStatus.busy }

/-- Accepted emergency of the C7 witness state, assigned to c7driver. -/
def c7em : Emergency :=
  { id := 1, patientSocketId := 200, location := unknownLoc, severity := "medium",
    etype := "cardiac", status := EStatus.accepted, assignedDriver := some c7driver }

/-- C7 witness state: one busy driver holding the accepted request 1. -/
def c7state : ServerState :=
  { drivers := [(3, c7driver)], emergencies := [(1, c7em)], hospitals := [], nextId := 2 }

/-- Witness for C7: the owner on socket 200 cancels its accepted request. -/
theorem C7_witness :
    getAssoc (step c7state (Event.patientCancel 200 1)).1.emergencies 1 = none ∧
    (c7em.assignedDriver = none →
      step c7state (Event.patientCancel 200 1) =
        ({ c7state with emergencies := delAssoc c7state.emergencies 1 }, [])) ∧
    (∀ ad : Driver, c7em.assignedDriver = some ad →
      Msg.emergencyCancelled ad.socketId 1 ∈ (step c7state (Event.patientCancel 200 1)).2 ∧
      ∀ drv : Driver, getAssoc c7state.drivers ad.socketId = some drv →
        getAssoc (step c7state (Event.patientCancel 200 1)).1.drivers ad.socketId =
          some { drv with status := DriverStatus.available }) ∧
    (∀ s2 : ServerState, getAssoc s2.emergencies 1 = none →
      step s2 (Event.patientCancel 200 1) = (s2, [])) :=
  C7_owner_cancel c7state 200 1 c7em rfl rfl (Or.inr rfl)

/-- C8 counterexample: a driver:register with every field missing is NOT
rejected: the registry is mutated (a driver record with default values
appears under the sending socket) and the sender receives a success
acknowledgement, not an error payload, refuting the claim as stated. -/
theorem C8_counterexample_defaults_accepted :
    (step initState
        (Event.driverRegister 1 { name := none, vehicle := none, location := none })).1.drivers =
      [(1, { id := 0, socketId := 1, name := "Unknown Driver", vehicle := "MH-XX-XXXX",
             location := mumbaiLoc, status := DriverStatus.available })] ∧
    (step initState
        (Event.driverRegister 1 { name := none, vehicle := none, location := none })).2 =
      [Msg.driverRegistered 1
        { id := 0, socketId := 1, name := "Unknown Driver", vehicle := "MH-XX-XXXX",
          location := mumbaiLoc, status := DriverStatus.available }] :=
  ⟨rfl, rfl⟩

/-- C8 (amended): registration and new-request events with missing fields
are not rejected and mutate shared state: each missing field is replaced
by its default (driver name, vehicle, Mumbai location; request location,
severity high, type accident), the record is stored, and the sender gets a
success acknowledgement; no error acknowledgement path exists. -/
theorem C8_missing_fields_defaulted (s : ServerState) (sid : Nat)
    (rd : RegisterData) (sd : SosData) :
    (∃ drv : Driver,
      getAssoc (step s (Event.driverRegister sid rd)).1.drivers sid = some drv ∧
      drv.name = jsOrStr rd.name "Unknown Driver" ∧
      drv.vehicle = jsOrStr rd.vehicle "MH-XX-XXXX" ∧
      drv.location = rd.location.getD mumbaiLoc ∧
      drv.status = DriverStatus.available ∧
      (step s (Event.driverRegister sid rd)).2 = [Msg.driverRegistered sid drv]) ∧
    (∃ em : Emergency,
      getAssoc (step s (Event.patientSos sid sd)).1.emergencies s.nextId = some em ∧
      em.severity = jsOrStr sd.severity "high" ∧
      em.etype = jsOrStr sd.etype "accident" ∧
      em.location = sd.location.getD unknownLoc ∧
      em.status = EStatus.searching ∧
      Msg.emergencyCreated sid s.nextId EStatus.searching ∈ (step s (Event.patientSos sid sd)).2) := by
  constructor
  · refine ⟨{ id := s.nextId, socketId := sid, name := jsOrStr rd.name "Unknown Driver",
              vehicle := jsOrStr rd.vehicle "MH-XX-XXXX",
              location := rd.location.getD mumbaiLoc,
              status := DriverStatus.available }, ?_, rfl, rfl, rfl, rfl, rfl⟩
    simp only [step, handleDriverRegister]
    rw [getAssoc_setAssoc, if_pos rfl]
  · refine ⟨{ id := s.nextId, patientSocketId := sid,
              location := sd.location.getD unknownLoc,
              severity := jsOrStr sd.severity "high",
              etype := jsOrStr sd.etype "accident",
              status := EStatus.searching, assignedDriver := none }, ?_, rfl, rfl, rfl, rfl, ?_⟩
    · simp only [step, handlePatientSos]
      rw [getAssoc_setAssoc, if_pos rfl]
    · simp [step, handlePatientSos]

/-- C10: a patient:cancel naming an existing request from a socket that is
not the owning requester is a total no-op: the state (ledger entry, its
status and assigned responder, every availability flag) is unchanged and
no message is emitted to anyone. -/
theorem C10_foreign_cancel_noop (s : ServerState) (sid eid : Nat) (em : Emergency)
    (hem : getAssoc s.emergencies eid = some em)
    (hne : em.patientSocketId ≠ sid) :
    step s (Event.patientCancel sid eid) = (s, []) := by
  simp [step, handlePatientCancel, hem, hne]

/-- Witness for C10: socket 5 tries to cancel the request owned by socket
200 in the C7 witness state. -/
theorem C10_witness :
    step c7state (Event.patientCancel 5 1) = (c7state, []) :=
  C10_foreign_cancel_noop c7state 5 1 c7em rfl (by decide)

noncomputable section

/-- deg2rad from the source (lines 473-475). -/
def deg2rad (deg : ℝ) : ℝ := deg * (Real.pi / 180)

/-- Math.atan2 by its standard case split on the signs of the arguments;
only the first branch (positive second argument) is reached by the
theorems below. -/
def atan2 (y x : ℝ) : ℝ :=
  if 0 < x then Real.arctan (y / x)
  else if x < 0 ∧ 0 ≤ y then Real.arctan (y / x) + Real.pi
  else if x < 0 ∧ y < 0 then Real.arctan (y / x) - Real.pi
  else if x = 0 ∧ 0 < y then Real.pi / 2
  else if x = 0 ∧ y < 0 then -(Real.pi / 2)
  else 0

/-- The intermediate value a of calculateDistance (source lines 463-468):
dLat and dLon are the degree differences converted to radians and the
products of sines are written exactly as in the source. -/
def haversineA (loc1 loc2 : Loc) : ℝ :=
  Real.sin (deg2rad ((loc2.lat : ℝ) - (loc1.lat : ℝ)) / 2) *
      Real.sin (deg2rad ((loc2.lat : ℝ) - (loc1.lat : ℝ)) / 2) +
    Real.cos (deg2rad (loc1.lat : ℝ)) * Real.cos (deg2rad (loc2.lat : ℝ)) *
      Real.sin (deg2rad ((loc2.lng : ℝ) - (loc1.lng : ℝ)) / 2) *
      Real.sin (deg2rad ((loc2.lng : ℝ) - (loc1.lng : ℝ)) / 2)

/-- Number.toFixed(1) as rounding to one decimal place over the reals; the
code then appends the literal string " km", a presentation detail kept out
of the numeric model. -/
def toFixed1 (x : ℝ) : ℝ := (round (x * 10) : ℤ) / 10

/-- calculateDistance (source lines 460-471): haversine great-circle
distance with Earth radius R = 6371 km, c = 2 * atan2(sqrt a, sqrt(1-a)),
reported as R * c rounded to one decimal place.  It is a pure function of
its two location arguments by construction. -/
def calculateDistance (loc1 loc2 : Loc) : ℝ :=
  toFixed1 (6371 *
    (2 * atan2 (Real.sqrt (haversineA loc1 loc2)) (Real.sqrt (1 - haversineA loc1 loc2))))

end

theorem haversineA_comm (A B : Loc) : haversineA A B = haversineA B A := by
  unfold haversineA deg2rad
  have key : ∀ u v : ℝ,
      Real.sin ((u - v) * (Real.pi / 180) / 2) =
        -Real.sin ((v - u) * (Real.pi / 180) / 2) := by
    intro u v
    rw [show (u - v) * (Real.pi / 180) / 2 = -((v - u) * (Real.pi / 180) / 2) by ring,
      Real.sin_neg]
  rw [key ((B.lat : ℝ)) ((A.lat : ℝ)), key ((B.lng : ℝ)) ((A.lng : ℝ))]
  ring

theorem haversineA_self (A : Loc) : haversineA A A = 0 := by
  unfold haversineA deg2rad
  simp

theorem calculateDistance_comm (A B : Loc) : calculateDistance A B = calculateDistance B A := by
  unfold calculateDistance
  rw [haversineA_comm]

theorem calculateDistance_self (A : Loc) : calculateDistance A A = 0 := by
  unfold calculateDistance
  rw [haversineA_self, Real.sqrt_zero, sub_zero, Real.sqrt_one]
  unfold atan2
  rw [if_pos one_pos]
  simp [toFixed1]

/-- C9: the distance estimator calculateDistance is a pure function of its
two latitude/longitude arguments (a function definition with no state),
transcribing the haversine formula with Earth radius 6371 km and reporting
kilometers rounded to one decimal place (the source formats this number
with one decimal and appends " km"); it is symmetric in its arguments and
evaluates to 0 on two equal coordinates. -/
theorem C9_distance_symmetric_and_zero_on_diagonal :
    (∀ A B : Loc, calculateDistance A B = calculateDistance B A) ∧
    (∀ A : Loc, calculateDistance A A = 0) :=
  ⟨calculateDistance_comm, calculateDistance_self⟩

end Dispatch
